import Mathlib

/-!
Shallow embedding of the PDFMaster Pro transformation pipeline
(`src/main.py`) and verification of its specified properties.

The embedding models the pure decision logic of each endpoint:
  * `split_pdf` / `parse_ranges`  — the `/api/split` endpoint,
  * `merge_pdfs`                  — the `/api/merge` endpoint,
  * `compress_pdf`                — the `/api/compress` endpoint,
  * `unlock_pdf`                  — the `/api/unlock` endpoint,
  * `watermark_pdf`               — the `/api/watermark` endpoint.
External capability providers (PyPDF2 parsing, pikepdf, PIL codecs,
text measurement) are abstracted as parameters; Python exceptions are
modelled by the `PyError` type (`valueError` / `indexError` stand for the
corresponding uncaught Python exception classes, `httpException` for an
explicitly raised `HTTPException`).
-/

/-- Python exception outcomes relevant to the endpoints: an uncaught
`ValueError`, an uncaught `IndexError`, or an explicitly raised
`HTTPException status detail`.  Only `httpException` carries an HTTP
status chosen by the application; uncaught exceptions surface as
server errors at the framework boundary. -/
inductive PyError : Type
  | valueError : PyError
  | indexError : PyError
  | httpException : Nat → String → PyError
deriving DecidableEq, Repr

/-- Decidable equality for `Except`, used to evaluate the embedded
endpoints on concrete inputs. -/
instance {ε α : Type} [DecidableEq ε] [DecidableEq α] : DecidableEq (Except ε α) := fun a b =>
  match a, b with
  | Except.ok x, Except.ok y =>
    if h : x = y then Decidable.isTrue (by rw [h])
    else Decidable.isFalse (by intro hc; injection hc; contradiction)
  | Except.error x, Except.error y =>
    if h : x = y then Decidable.isTrue (by rw [h])
    else Decidable.isFalse (by intro hc; injection hc; contradiction)
  | Except.ok _, Except.error _ => Decidable.isFalse (by intro hc; injection hc)
  | Except.error _, Except.ok _ => Decidable.isFalse (by intro hc; injection hc)

/-- Sequential effectful loop over a list, as a Python `for` loop that
collects results and propagates the first raised exception. -/
def forEachE {β γ : Type} (f : β → Except PyError γ) : List β → Except PyError (List γ)
  | [] => Except.ok []
  | x :: xs =>
    match f x with
    | Except.error e => Except.error e
    | Except.ok y =>
      match forEachE f xs with
      | Except.error e => Except.error e
      | Except.ok ys => Except.ok (y :: ys)

/-- Characters removed by Python `str.strip()`. -/
def isPySpace (c : Char) : Bool :=
  c == ' ' || c == '\t' || c == '\n' || c == '\r' || c == '\x0b' || c == '\x0c'

/-- Python `str.split(sep)` with a one-character separator: splits at every
occurrence and keeps empty pieces. -/
def splitOnChar (sep : Char) : List Char → List (List Char)
  | [] => [[]]
  | c :: cs =>
    if c == sep then [] :: splitOnChar sep cs
    else
      match splitOnChar sep cs with
      | [] => [[c]]
      | w :: ws => (c :: w) :: ws

/-- Python `str.strip()`. -/
def pyStrip (l : List Char) : List Char :=
  ((l.dropWhile isPySpace).reverse.dropWhile isPySpace).reverse

/-- ASCII decimal digit test. -/
def isAsciiDigit (c : Char) : Bool :=
  48 ≤ c.toNat && c.toNat ≤ 57

/-- Value of a digit string, accumulator style. -/
def digitsVal : List Char → Nat → Nat
  | [], acc => acc
  | c :: cs, acc => digitsVal cs (acc * 10 + (c.toNat - 48))

/-- Python `int(s)`: surrounding whitespace stripped, an optional single
sign, then a non-empty run of decimal digits; anything else raises
`ValueError` (modelled as `none`). -/
def pyInt (l : List Char) : Option Int :=
  match pyStrip l with
  | [] => none
  | '-' :: rest =>
    if !rest.isEmpty && rest.all isAsciiDigit then some (-(digitsVal rest 0 : Int)) else none
  | '+' :: rest =>
    if !rest.isEmpty && rest.all isAsciiDigit then some ((digitsVal rest 0 : Int)) else none
  | s =>
    if s.all isAsciiDigit then some ((digitsVal s 0 : Int)) else none

/-- One token of the split range grammar, as in `split_pdf.parse_ranges`:
the token is stripped; if it contains a hyphen it must split into exactly
two integer pieces `a`, `b`, yielding `(max 1 a, min total b)`; otherwise it
must be an integer `v`, yielding `(max 1 v, min total v)`.  A malformed
piece raises `ValueError`. -/
def parseToken (total : Int) (seg0 : List Char) : Except PyError (Int × Int) :=
  let seg := pyStrip seg0
  if seg.contains '-' then
    match splitOnChar '-' seg with
    | [sa, sb] =>
      match pyInt sa, pyInt sb with
      | some a, some b => Except.ok (max 1 a, min total b)
      | _, _ => Except.error PyError.valueError
    | _ => Except.error PyError.valueError
  else
    match pyInt seg with
    | some v => Except.ok (max 1 v, min total v)
    | none => Except.error PyError.valueError

/-- Second pass of `parse_ranges`: a pair with reversed bounds is swapped. -/
def swapIfRev (ab : Int × Int) : Int × Int :=
  if ab.1 > ab.2 then (ab.2, ab.1) else ab

/-- `split_pdf.parse_ranges`: a missing or empty range string means one
range covering the whole document; otherwise the string is split on commas,
each token parsed by `parseToken`, and reversed bounds swapped. -/
def parse_ranges (r : Option String) (total : Int) : Except PyError (List (Int × Int)) :=
  match r with
  | none => Except.ok [(1, total)]
  | some s =>
    if s.data.isEmpty then Except.ok [(1, total)]
    else
      match forEachE (parseToken total) (splitOnChar ',' s.data) with
      | Except.error e => Except.error e
      | Except.ok parts => Except.ok (parts.map swapIfRev)

/-- Python `range(lo, hi)` over integers. -/
def intRange (lo hi : Int) : List Int :=
  (List.range (hi - lo).toNat).map (fun (k : Nat) => lo + (k : Int))

/-- Python list indexing `pages[i]`: non-negative indices are direct,
negative indices wrap from the end, anything else raises `IndexError`
(modelled as `none`). -/
def pyIndex {α : Type} (pages : List α) (i : Int) : Option α :=
  if 0 ≤ i then pages[i.toNat]?
  else if 0 ≤ (pages.length : Int) + i then pages[((pages.length : Int) + i).toNat]?
  else none

/-- `reader.pages[i]` with the `IndexError` made explicit. -/
def getPageAt {α : Type} (pages : List α) (i : Int) : Except PyError α :=
  match pyIndex pages i with
  | some x => Except.ok x
  | none => Except.error PyError.indexError

/-- The pages written for one chunk `(a, b)` of `split_pdf`:
`for i in range(a - 1, b): writer.add_page(reader.pages[i])`. -/
def chunkPages {α : Type} (pages : List α) (a b : Int) : Except PyError (List α) :=
  forEachE (getPageAt pages) (intRange (a - 1) b)

/-- The `/api/split` endpoint: a document is a list of pages; the result is
the list of output documents (one per chunk), or the first exception
raised. -/
def split_pdf {α : Type} (pages : List α) (ranges : Option String) :
    Except PyError (List (List α)) :=
  match parse_ranges ranges (pages.length : Int) with
  | Except.error e => Except.error e
  | Except.ok chunks => forEachE (fun c => chunkPages pages c.1 c.2) chunks

/-- Loop of the `/api/merge` endpoint: each input is a parse result; the
first failing input raises `HTTPException 400`, otherwise all pages are
appended in order. -/
def merge_go {α : Type} : List (Except PyError (List α)) → List α → Except PyError (List α)
  | [], acc => Except.ok acc
  | Except.error _ :: _, _ => Except.error (PyError.httpException 400 "Failed to read file")
  | Except.ok pages :: rest, acc => merge_go rest (acc ++ pages)

/-- The `/api/merge` endpoint: fewer than two files is rejected up front;
otherwise the inputs are read sequentially and their pages concatenated. -/
def merge_pdfs {α : Type} (inputs : List (Except PyError (List α))) : Except PyError (List α) :=
  if inputs.length < 2 then
    Except.error (PyError.httpException 400 "Please upload at least two PDF files to merge.")
  else merge_go inputs []

/-- An XObject in a page's resource dictionary: its indirect object
reference, `/Subtype`, stream payload bytes and stream filter tag. -/
structure XObject : Type where
  ref : Nat
  subtype : String
  data : List Nat
  filterTag : String
deriving DecidableEq, Repr

/-- A parsed page for the compress endpoint: its XObject resources. -/
structure PdfPage : Type where
  xobjects : List XObject
deriving DecidableEq, Repr

/-- Per-XObject body of the `/api/compress` loop: only `/Image` subtypes
are touched; the abstract recoder (PIL decode + JPEG re-encode) either
yields new payload bytes — installed in place with the filter tag set to
JPEG — or fails, in which case the `except: continue` leaves the object
untouched. -/
def recodeXObject (recode : XObject → Option (List Nat)) (x : XObject) : XObject :=
  if x.subtype = "/Image" then
    match recode x with
    | some newData => { x with data := newData, filterTag := "JPEG" }
    | none => x
  else x

/-- One page of the `/api/compress` loop. -/
def compress_page (recode : XObject → Option (List Nat)) (p : PdfPage) : PdfPage :=
  ⟨p.xobjects.map (recodeXObject recode)⟩

/-- The recognized quality band names of `/api/compress`. -/
def qualityLevels : List String := ["low", "medium", "high"]

/-- ASCII lowercasing of one character, as Python `str.lower()` acts on
the ASCII level names. -/
def lowerChar (c : Char) : Char :=
  if 65 ≤ c.toNat && c.toNat ≤ 90 then Char.ofNat (c.toNat + 32) else c

/-- Python `str.lower()` restricted to ASCII. -/
def pyLower (s : String) : String :=
  String.mk (s.data.map lowerChar)

/-- The `/api/compress` endpoint: an unknown level is rejected with a 400
before the document is touched; otherwise every page's images are run
through the per-image recode step. -/
def compress_pdf (level : String) (recode : XObject → Option (List Nat))
    (pages : List PdfPage) : Except PyError (List PdfPage) :=
  if qualityLevels.contains (pyLower level) then
    Except.ok (pages.map (compress_page recode))
  else Except.error (PyError.httpException 400 "level must be one of: low, medium, high")

/-- A parsed document for the unlock endpoint: whether it is encrypted,
which credentials PyPDF2's `decrypt` accepts, and its pages. -/
structure LockedDoc (α : Type) : Type where
  is_encrypted : Bool
  checkPassword : String → Bool
  pages : List α

/-- The no-credential branch of `/api/unlock`: the best-effort pikepdf
permission-stripping rewrite either yields an output document or raises
`HTTPException 400 "Password required to unlock"`. -/
def unlock_fallback {α : Type} (rewrite : Option (List α)) : Except PyError (List α) :=
  match rewrite with
  | some out => Except.ok out
  | none => Except.error (PyError.httpException 400 "Password required to unlock")

/-- The `/api/unlock` endpoint.  On an encrypted document with a truthy
(non-empty) password, `reader.decrypt` decides between re-serializing the
pages and `HTTPException 400 "Incorrect password"`; with no truthy password
the pikepdf fallback runs; an unencrypted document is re-serialized as is. -/
def unlock_pdf {α : Type} (doc : LockedDoc α) (password : Option String)
    (rewrite : Option (List α)) : Except PyError (List α) :=
  if doc.is_encrypted then
    match password with
    | some pw =>
      if pw ≠ "" then
        if doc.checkPassword pw then Except.ok doc.pages
        else Except.error (PyError.httpException 400 "Incorrect password")
      else unlock_fallback rewrite
    | none => unlock_fallback rewrite
  else Except.ok doc.pages

/-- A page's geometry for the watermark endpoint: the integer-truncated
mediabox width and height of that page. -/
structure WPage : Type where
  mediaboxWidth : Int
  mediaboxHeight : Int
deriving DecidableEq, Repr

/-- The computed watermark placement for one page: the overlay image
dimensions, the measured text box, and the text origin. -/
structure Placement : Type where
  imgWidth : Int
  imgHeight : Int
  tw : Int
  th : Int
  x : Int
  y : Int
deriving DecidableEq, Repr

/-- The `pos_map` dictionary of `/api/watermark`, keyed by position. -/
def pos_map (W H tw th : Int) : List (String × (Int × Int)) :=
  [("top-left", (20, 20)),
   ("top-right", (W - tw - 20, 20)),
   ("center", ((W - tw).fdiv 2, (H - th).fdiv 2))]

/-- `pos_map.get(position, pos_map["center"])`. -/
def lookupXY (W H tw th : Int) (position : String) : Int × Int :=
  ((pos_map W H tw th).lookup position).getD
    (((pos_map W H tw th).lookup "center").getD (0, 0))

/-- Per-page body of the `/api/watermark` loop: the overlay image is
`max 1 width × max 1 height`, the font size is `max 14 (min width height // 18)`,
the text is measured at that font size, and the origin is read from
`pos_map` with a fallback to the center entry. -/
def placeOnPage (measure : Int → String → Int × Int) (text position : String)
    (p : WPage) : Placement :=
  let width := p.mediaboxWidth
  let height := p.mediaboxHeight
  let W := max 1 width
  let H := max 1 height
  let f := max 14 ((min width height).fdiv 18)
  let m := measure f text
  let xy := lookupXY W H m.1 m.2 position
  ⟨W, H, m.1, m.2, xy.1, xy.2⟩

/-- The `/api/watermark` endpoint: the placement is recomputed for every
page from that page's own mediabox. -/
def watermark_pdf (measure : Int → String → Int × Int) (text position : String)
    (pages : List WPage) : List Placement :=
  pages.map (placeOnPage measure text position)

lemma merge_go_all_ok {α : Type} (docs : List (List α)) :
    ∀ acc : List α, merge_go (docs.map Except.ok) acc = Except.ok (acc ++ docs.flatten) := by
  induction docs with
  | nil => intro acc; simp [merge_go]
  | cons d ds ih => intro acc; simp [merge_go, ih (acc ++ d)]

lemma merge_go_has_error {α : Type} (inputs : List (Except PyError (List α)))
    (h : ∃ e : PyError, Except.error e ∈ inputs) :
    ∀ acc : List α,
      merge_go inputs acc = Except.error (PyError.httpException 400 "Failed to read file") := by
  induction inputs with
  | nil => obtain ⟨e, he⟩ := h; simp at he
  | cons x xs ih =>
    intro acc
    obtain ⟨e, he⟩ := h
    cases x with
    | error e2 => simp [merge_go]
    | ok pages =>
      have hxs : Except.error e ∈ xs := by
        rcases List.mem_cons.mp he with h1 | h1
        · exact absurd h1 (by simp)
        · exact h1
      exact ih ⟨e, hxs⟩ (acc ++ pages)

/-- C4: merging input documents that all parse yields one document whose
pages are the concatenation, in request order, of the inputs' pages in
their original order; its page count is the sum of the input page counts. -/
theorem C4_merge_page_counts (α : Type) (docs : List (List α)) (h : 2 ≤ docs.length) :
    merge_pdfs (docs.map Except.ok) = Except.ok docs.flatten ∧
    docs.flatten.length = (docs.map List.length).sum := by
  constructor
  · have hlen : ¬ (docs.map (Except.ok : List α → Except PyError (List α))).length < 2 := by
      simp; omega
    simp only [merge_pdfs, if_neg hlen]
    simpa using merge_go_all_ok docs []
  · simp [List.length_flatten]

theorem C4_witness :
    merge_pdfs (([[1], [2, 3]] : List (List Nat)).map Except.ok) =
      Except.ok ([[1], [2, 3]] : List (List Nat)).flatten ∧
    (([[1], [2, 3]] : List (List Nat)).flatten).length =
      (([[1], [2, 3]] : List (List Nat)).map List.length).sum :=
  C4_merge_page_counts Nat [[1], [2, 3]] (by decide)

/-- C9: if any one merge input fails to parse, the whole combine is
rejected with an HTTP 400 user error and no merged output is returned. -/
theorem C9_merge_aborts_on_parse_failure (α : Type)
    (inputs : List (Except PyError (List α)))
    (h : ∃ e : PyError, Except.error e ∈ inputs) :
    ∃ detail : String,
      merge_pdfs inputs = Except.error (PyError.httpException 400 detail) := by
  by_cases hlen : inputs.length < 2
  · exact ⟨"Please upload at least two PDF files to merge.", by simp [merge_pdfs, hlen]⟩
  · exact ⟨"Failed to read file", by simp [merge_pdfs, hlen, merge_go_has_error inputs h]⟩

theorem C9_witness :
    ∃ detail : String,
      merge_pdfs ([Except.ok [1], Except.error PyError.valueError] :
          List (Except PyError (List Nat))) =
        Except.error (PyError.httpException 400 detail) :=
  C9_merge_aborts_on_parse_failure Nat _ ⟨PyError.valueError, by decide⟩

/-- C3: in a recompress request, an image whose recode fails is skipped
with its bytes untouched, and every other image of every page is still
processed; the whole document still succeeds. -/
theorem C3_per_image_failure_skipped (level : String) (recode : XObject → Option (List Nat))
    (pages : List PdfPage) (hlevel : qualityLevels.contains (pyLower level) = true) :
    ∃ out : List PdfPage, compress_pdf level recode pages = Except.ok out ∧
      out.length = pages.length ∧
      (∀ (i j : Nat) (hi : i < pages.length) (hi2 : i < out.length)
          (hj : j < ((pages.get ⟨i, hi⟩).xobjects).length)
          (hj2 : j < ((out.get ⟨i, hi2⟩).xobjects).length),
        (out.get ⟨i, hi2⟩).xobjects.get ⟨j, hj2⟩ =
          recodeXObject recode ((pages.get ⟨i, hi⟩).xobjects.get ⟨j, hj⟩)) ∧
      (∀ x : XObject, recode x = none → recodeXObject recode x = x) := by
  refine ⟨pages.map (compress_page recode), ?_, by simp, ?_, ?_⟩
  · unfold compress_pdf; rw [if_pos hlevel]
  · intro i j hi hi2 hj hj2
    simp [List.get_eq_getElem, compress_page]
  · intro x hx
    by_cases hs : x.subtype = "/Image"
    · simp [recodeXObject, hs, hx]
    · simp [recodeXObject, hs]

def demoRecode : XObject → Option (List Nat) :=
  fun x => if x.ref == 1 then none else some [9]

def demoPages : List PdfPage :=
  [⟨[⟨0, "/Image", [1, 2], "/DCTDecode"⟩, ⟨1, "/Image", [3, 4], "/DCTDecode"⟩]⟩]

theorem C3_witness :
    qualityLevels.contains (pyLower "medium") = true ∧
    (∃ out : List PdfPage, compress_pdf "medium" demoRecode demoPages = Except.ok out ∧
      out.length = demoPages.length ∧
      (∀ (i j : Nat) (hi : i < demoPages.length) (hi2 : i < out.length)
          (hj : j < ((demoPages.get ⟨i, hi⟩).xobjects).length)
          (hj2 : j < ((out.get ⟨i, hi2⟩).xobjects).length),
        (out.get ⟨i, hi2⟩).xobjects.get ⟨j, hj2⟩ =
          recodeXObject demoRecode ((demoPages.get ⟨i, hi⟩).xobjects.get ⟨j, hj⟩)) ∧
      (∀ x : XObject, demoRecode x = none → recodeXObject demoRecode x = x)) :=
  ⟨by decide, C3_per_image_failure_skipped "medium" demoRecode demoPages (by decide)⟩

/-- C7: a successful recompress preserves the page count and page order
(page i of the output is the recoded page i of the input); the object
reference of every recoded image is unchanged, and a successful recode
replaces only the payload bytes and the filter tag. -/
theorem C7_compress_structure_preserved (level : String) (recode : XObject → Option (List Nat))
    (pages : List PdfPage) (hlevel : qualityLevels.contains (pyLower level) = true) :
    ∃ out : List PdfPage, compress_pdf level recode pages = Except.ok out ∧
      out.length = pages.length ∧
      (∀ (i : Nat) (hi : i < pages.length) (hi2 : i < out.length),
        out.get ⟨i, hi2⟩ = compress_page recode (pages.get ⟨i, hi⟩)) ∧
      (∀ x : XObject, (recodeXObject recode x).ref = x.ref ∧
        (recodeXObject recode x).subtype = x.subtype) ∧
      (∀ (x : XObject) (d : List Nat), x.subtype = "/Image" → recode x = some d →
        recodeXObject recode x = { x with data := d, filterTag := "JPEG" }) := by
  refine ⟨pages.map (compress_page recode), ?_, by simp, ?_, ?_, ?_⟩
  · unfold compress_pdf; rw [if_pos hlevel]
  · intro i hi hi2
    simp [List.get_eq_getElem]
  · intro x
    by_cases hs : x.subtype = "/Image"
    · cases hr : recode x <;> simp [recodeXObject, hs, hr]
    · simp [recodeXObject, hs]
  · intro x d hs hd
    simp [recodeXObject, hs, hd]

theorem C7_witness :
    qualityLevels.contains (pyLower "low") = true ∧
    (∃ out : List PdfPage, compress_pdf "low" demoRecode demoPages = Except.ok out ∧
      out.length = demoPages.length ∧
      (∀ (i : Nat) (hi : i < demoPages.length) (hi2 : i < out.length),
        out.get ⟨i, hi2⟩ = compress_page demoRecode (demoPages.get ⟨i, hi⟩)) ∧
      (∀ x : XObject, (recodeXObject demoRecode x).ref = x.ref ∧
        (recodeXObject demoRecode x).subtype = x.subtype) ∧
      (∀ (x : XObject) (d : List Nat), x.subtype = "/Image" → demoRecode x = some d →
        recodeXObject demoRecode x = { x with data := d, filterTag := "JPEG" })) :=
  ⟨by decide, C7_compress_structure_preserved "low" demoRecode demoPages (by decide)⟩

/-- C5: on an encrypted document, a correct non-empty credential unlocks
and re-serializes the pages; an incorrect non-empty credential fails with
HTTP 400 and produces no output; an unencrypted document succeeds with
the page count unchanged. -/
theorem C5_unlock_cases (α : Type) (doc : LockedDoc α) (rewrite : Option (List α)) :
    (∀ pw : String, doc.is_encrypted = true → pw ≠ "" → doc.checkPassword pw = true →
      unlock_pdf doc (some pw) rewrite = Except.ok doc.pages) ∧
    (∀ pw : String, doc.is_encrypted = true → pw ≠ "" → doc.checkPassword pw = false →
      unlock_pdf doc (some pw) rewrite =
        Except.error (PyError.httpException 400 "Incorrect password")) ∧
    (∀ password : Option String, doc.is_encrypted = false →
      ∃ out : List α, unlock_pdf doc password rewrite = Except.ok out ∧
        out.length = doc.pages.length) := by
  refine ⟨?_, ?_, ?_⟩
  · intro pw henc hne hok
    simp [unlock_pdf, henc, hne, hok]
  · intro pw henc hne hbad
    simp [unlock_pdf, henc, hne, hbad]
  · intro password henc
    exact ⟨doc.pages, by cases password <;> simp [unlock_pdf, henc], rfl⟩

def demoLockedDoc : LockedDoc Nat :=
  ⟨true, fun s => s == "s3cret", [0, 1, 2]⟩

def demoOpenDoc : LockedDoc Nat :=
  ⟨false, fun s => s == "s3cret", [0, 1, 2]⟩

theorem C5_witness :
    unlock_pdf demoLockedDoc (some "s3cret") none = Except.ok demoLockedDoc.pages ∧
    unlock_pdf demoLockedDoc (some "wrong") none =
      Except.error (PyError.httpException 400 "Incorrect password") ∧
    (∃ out : List Nat, unlock_pdf demoOpenDoc (some "anything") none = Except.ok out ∧
      out.length = demoOpenDoc.pages.length) :=
  ⟨(C5_unlock_cases Nat demoLockedDoc none).1 "s3cret" rfl (by decide) (by decide),
   (C5_unlock_cases Nat demoLockedDoc none).2.1 "wrong" rfl (by decide) (by decide),
   (C5_unlock_cases Nat demoOpenDoc none).2.2 (some "anything") rfl⟩

lemma lookupXY_center (W H tw th : Int) :
    lookupXY W H tw th "center" = ((W - tw).fdiv 2, (H - th).fdiv 2) := by
  simp [lookupXY, pos_map, List.lookup]

lemma lookupXY_top_left (W H tw th : Int) :
    lookupXY W H tw th "top-left" = (20, 20) := by
  simp [lookupXY, pos_map, List.lookup]

lemma lookupXY_unknown (position : String) (h1 : position ≠ "top-left")
    (h2 : position ≠ "top-right") (h3 : position ≠ "center") (W H tw th : Int) :
    lookupXY W H tw th position = lookupXY W H tw th "center" := by
  have b1 : (position == "top-left") = false := beq_eq_false_iff_ne.mpr h1
  have b2 : (position == "top-right") = false := beq_eq_false_iff_ne.mpr h2
  have b3 : (position == "center") = false := beq_eq_false_iff_ne.mpr h3
  simp [lookupXY, pos_map, List.lookup, b1, b2, b3]

lemma fdiv_two_center_bound (W t : Int) : |2 * ((W - t).fdiv 2) + t - W| ≤ 1 := by
  have hd : (W - t).fdiv 2 = (W - t) / 2 := Int.fdiv_eq_ediv (W - t) (by norm_num)
  rw [hd, abs_le]
  omega

/-- C6: a watermark placed at position center has its text box center
within rounding tolerance (half a unit) of the page center on both axes; a
watermark at position top-left has its origin exactly 20 units from the
page's top-left corner; and the placement of every page is computed from
that page's own geometry. -/
theorem C6_watermark_placement (measure : Int → String → Int × Int) (text : String)
    (pages : List WPage) :
    (∀ p : WPage, 1 ≤ p.mediaboxWidth → 1 ≤ p.mediaboxHeight →
      |2 * (placeOnPage measure text "center" p).x +
          (placeOnPage measure text "center" p).tw - p.mediaboxWidth| ≤ 1 ∧
      |2 * (placeOnPage measure text "center" p).y +
          (placeOnPage measure text "center" p).th - p.mediaboxHeight| ≤ 1) ∧
    (∀ p : WPage, (placeOnPage measure text "top-left" p).x = 20 ∧
      (placeOnPage measure text "top-left" p).y = 20) ∧
    (∀ (position : String) (i : Nat) (hi : i < pages.length)
        (hi2 : i < (watermark_pdf measure text position pages).length),
      (watermark_pdf measure text position pages).get ⟨i, hi2⟩ =
        placeOnPage measure text position (pages.get ⟨i, hi⟩)) := by
  refine ⟨?_, ?_, ?_⟩
  · intro p hw hh
    have hW : max 1 p.mediaboxWidth = p.mediaboxWidth := max_eq_right hw
    have hH : max 1 p.mediaboxHeight = p.mediaboxHeight := max_eq_right hh
    constructor
    · simpa [placeOnPage, lookupXY_center, hW] using
        fdiv_two_center_bound p.mediaboxWidth
          (measure (max 14 ((min p.mediaboxWidth p.mediaboxHeight).fdiv 18)) text).1
    · simpa [placeOnPage, lookupXY_center, hH] using
        fdiv_two_center_bound p.mediaboxHeight
          (measure (max 14 ((min p.mediaboxWidth p.mediaboxHeight).fdiv 18)) text).2
  · intro p
    constructor <;> simp [placeOnPage, lookupXY_top_left]
  · intro position i hi hi2
    simp [watermark_pdf, List.get_eq_getElem]

def demoMeasure : Int → String → Int × Int := fun f _ => (3 * f, f)

theorem C6_witness :
    ((1 : Int) ≤ (600 : Int)) ∧ ((1 : Int) ≤ (800 : Int)) ∧
    (|2 * (placeOnPage demoMeasure "CONFIDENTIAL" "center" ⟨600, 800⟩).x +
        (placeOnPage demoMeasure "CONFIDENTIAL" "center" ⟨600, 800⟩).tw - 600| ≤ 1 ∧
     |2 * (placeOnPage demoMeasure "CONFIDENTIAL" "center" ⟨600, 800⟩).y +
        (placeOnPage demoMeasure "CONFIDENTIAL" "center" ⟨600, 800⟩).th - 800| ≤ 1) ∧
    ((placeOnPage demoMeasure "CONFIDENTIAL" "top-left" ⟨600, 800⟩).x = 20 ∧
     (placeOnPage demoMeasure "CONFIDENTIAL" "top-left" ⟨600, 800⟩).y = 20) :=
  ⟨by decide, by decide,
   (C6_watermark_placement demoMeasure "CONFIDENTIAL" []).1 ⟨600, 800⟩ (by decide) (by decide),
   (C6_watermark_placement demoMeasure "CONFIDENTIAL" []).2.1 ⟨600, 800⟩⟩

/-- C10: a watermark request whose position keyword is none of top-left,
top-right, center does not fail: every page gets exactly the center
placement. -/
theorem C10_watermark_unknown_position_center (measure : Int → String → Int × Int)
    (text position : String) (pages : List WPage)
    (h1 : position ≠ "top-left") (h2 : position ≠ "top-right") (h3 : position ≠ "center") :
    watermark_pdf measure text position pages = watermark_pdf measure text "center" pages := by
  have hfun : placeOnPage measure text position = placeOnPage measure text "center" := by
    funext p
    simp only [placeOnPage, lookupXY_unknown position h1 h2 h3]
  simp only [watermark_pdf, hfun]

theorem C10_witness :
    watermark_pdf demoMeasure "CONFIDENTIAL" "diagonal" [⟨600, 800⟩] =
      watermark_pdf demoMeasure "CONFIDENTIAL" "center" [⟨600, 800⟩] :=
  C10_watermark_unknown_position_center demoMeasure "CONFIDENTIAL" "diagonal" [⟨600, 800⟩]
    (by decide) (by decide) (by decide)

lemma getPageAt_natCast {α : Type} (pages : List α) (k : Nat) (h : k < pages.length) :
    getPageAt pages (k : Int) = Except.ok (pages.get ⟨k, h⟩) := by
  have h0 : (0 : Int) ≤ (k : Int) := Int.natCast_nonneg k
  simp [getPageAt, pyIndex, h0, Int.toNat_natCast, List.getElem?_eq_getElem h,
    List.get_eq_getElem]

lemma forEachE_range {α : Type} (pages : List α) :
    ∀ (n k : Nat), k + n ≤ pages.length →
      forEachE (getPageAt pages) ((List.range n).map (fun t => ((k + t : Nat) : Int))) =
        Except.ok ((pages.drop k).take n) := by
  intro n
  induction n with
  | zero => intro k h; simp [forEachE]
  | succ n ih =>
    intro k h
    have hk : k < pages.length := by omega
    have hcomp : ((fun t : Nat => ((k + t : Nat) : Int)) ∘ Nat.succ)
        = fun t : Nat => (((k + 1) + t : Nat) : Int) := by
      funext t
      simp [Function.comp]
      omega
    rw [List.range_succ_eq_map, List.map_cons, List.map_map, hcomp]
    have hhead : ((k + 0 : Nat) : Int) = (k : Int) := by norm_num
    rw [hhead]
    simp only [forEachE, getPageAt_natCast pages k hk, ih (k + 1) (by omega)]
    rw [List.drop_eq_getElem_cons hk, List.take_succ_cons]
    simp [List.get_eq_getElem]

lemma chunkPages_eq {α : Type} (pages : List α) (a b : Int) (ha : 1 ≤ a) (hab : a ≤ b)
    (hb : b ≤ (pages.length : Int)) :
    chunkPages pages a b =
      Except.ok ((pages.drop (a - 1).toNat).take (b - a + 1).toNat) := by
  have h1 : b - (a - 1) = b - a + 1 := by ring
  have h2 : (fun j : Nat => (a - 1) + (j : Int))
      = fun t : Nat => (((a - 1).toNat + t : Nat) : Int) := by
    funext t
    push_cast
    omega
  rw [chunkPages, intRange, h1, h2]
  exact forEachE_range pages ((b - a + 1).toNat) ((a - 1).toNat) (by omega)

/-- C8: a partition request with no range string (or an empty one) yields
exactly one output document with the same page count (indeed the same
pages) as the input. -/
theorem C8_split_no_ranges (α : Type) (pages : List α) :
    split_pdf pages none = Except.ok [pages] ∧
    split_pdf pages (some "") = Except.ok [pages] := by
  have hchunk : chunkPages pages 1 (pages.length : Int) = Except.ok pages := by
    rcases Nat.eq_zero_or_pos pages.length with h0 | hpos
    · have hnil : pages = [] := List.length_eq_zero.mp h0
      subst hnil
      rfl
    · have h := chunkPages_eq pages 1 (pages.length : Int) (le_refl 1)
        (by exact_mod_cast hpos) (le_refl _)
      have h1 : ((pages.length : Int) - 1 + 1).toNat = pages.length := by omega
      have h2 : ((1 : Int) - 1).toNat = 0 := by norm_num
      rw [h1, h2] at h
      simpa using h
  constructor
  · show (match parse_ranges none (pages.length : Int) with
      | Except.error e => Except.error e
      | Except.ok chunks => forEachE (fun c => chunkPages pages c.1 c.2) chunks) =
        Except.ok [pages]
    simp [parse_ranges, forEachE, hchunk]
  · have hpr : parse_ranges (some "") (pages.length : Int) =
        Except.ok [(1, (pages.length : Int))] := rfl
    show (match parse_ranges (some "") (pages.length : Int) with
      | Except.error e => Except.error e
      | Except.ok chunks => forEachE (fun c => chunkPages pages c.1 c.2) chunks) =
        Except.ok [pages]
    rw [hpr]
    simp [forEachE, hchunk]

lemma parseToken_ok_bounds (total : Int) (seg : List Char) (p : Int × Int)
    (h : parseToken total seg = Except.ok p) : 1 ≤ p.1 ∧ p.2 ≤ total := by
  simp only [parseToken] at h
  split at h
  · split at h
    · split at h
      · injection h with h2
        rw [← h2]
        exact ⟨le_max_left 1 _, min_le_left total _⟩
      · cases h
    · cases h
  · split at h
    · injection h with h2
      rw [← h2]
      exact ⟨le_max_left 1 _, min_le_left total _⟩
    · cases h

lemma forEachE_ok_mem {β γ : Type} (f : β → Except PyError γ) :
    ∀ (l : List β) (out : List γ), forEachE f l = Except.ok out →
      ∀ c ∈ out, ∃ s ∈ l, f s = Except.ok c := by
  intro l
  induction l with
  | nil =>
    intro out h c hc
    simp only [forEachE] at h
    injection h with h2
    rw [← h2] at hc
    simp at hc
  | cons x xs ih =>
    intro out h c hc
    simp only [forEachE] at h
    rcases hfx : f x with e | y
    · rw [hfx] at h; simp at h
    · rw [hfx] at h
      rcases hrest : forEachE f xs with e | ys
      · rw [hrest] at h; simp at h
      · rw [hrest] at h
        simp only at h
        injection h with h2
        rw [← h2] at hc
        rcases List.mem_cons.mp hc with h3 | h3
        · exact ⟨x, List.mem_cons_self x xs, by rw [hfx, h3]⟩
        · obtain ⟨s, hs, hfs⟩ := ih ys hrest c h3
          exact ⟨s, List.mem_cons_of_mem x hs, hfs⟩

lemma parse_ranges_bounds (s : String) (total : Int) (chunks : List (Int × Int))
    (hne : s.data.isEmpty = false) (h : parse_ranges (some s) total = Except.ok chunks) :
    ∀ c ∈ chunks, c.1 ≤ c.2 ∧ ((1 ≤ c.1 ∧ c.2 ≤ total) ∨ (1 ≤ c.2 ∧ c.1 ≤ total)) := by
  intro c hc
  simp only [parse_ranges, hne, Bool.false_eq_true, if_false] at h
  rcases hfe : forEachE (parseToken total) (splitOnChar ',' s.data) with e | parts
  · rw [hfe] at h; simp at h
  · rw [hfe] at h
    simp only at h
    injection h with h2
    rw [← h2] at hc
    obtain ⟨pre, hpre, hmap⟩ := List.mem_map.mp hc
    obtain ⟨seg, hseg, hok⟩ := forEachE_ok_mem (parseToken total) _ parts hfe pre hpre
    obtain ⟨hb1, hb2⟩ := parseToken_ok_bounds total seg pre hok
    rw [← hmap]
    unfold swapIfRev
    by_cases hswap : pre.1 > pre.2
    · rw [if_pos hswap]
      exact ⟨by omega, Or.inr ⟨hb1, hb2⟩⟩
    · rw [if_neg hswap]
      exact ⟨by omega, Or.inl ⟨hb1, hb2⟩⟩

lemma parse_ranges_73 : parse_ranges (some "7-3") 8 = Except.ok [(3, 7)] := by decide

/-- C1 (amended): reversed bounds in an `a-b` token are swapped, but only
after an asymmetric clamp (the first integer is clamped below to 1, the
second above to pageCount).  On every 8-page document the token "7-3"
yields original pages 3 through 7 in ascending order.  Every produced
chunk `(a, b)` satisfies `a ≤ b` and either `1 ≤ a ∧ b ≤ pageCount` or
`1 ≤ b ∧ a ≤ pageCount`, but not necessarily full containment in
`[1, pageCount]`; a token whose first integer exceeds pageCount (or whose
second is below 1) escapes the clamp. -/
theorem C1_range_normalization :
    (∀ (α : Type) (pages : List α), pages.length = 8 →
      split_pdf pages (some "7-3") = Except.ok [(pages.drop 2).take 5]) ∧
    (∀ (s : String) (total : Int) (chunks : List (Int × Int)),
      s.data.isEmpty = false → parse_ranges (some s) total = Except.ok chunks →
      ∀ c ∈ chunks, c.1 ≤ c.2 ∧ ((1 ≤ c.1 ∧ c.2 ≤ total) ∨ (1 ≤ c.2 ∧ c.1 ≤ total))) := by
  constructor
  · intro α pages h8
    have htot : (pages.length : Int) = 8 := by rw [h8]; norm_num
    have hchunk := chunkPages_eq pages 3 7 (by norm_num) (by norm_num)
      (by rw [htot]; norm_num)
    norm_num at hchunk
    show (match parse_ranges (some "7-3") (pages.length : Int) with
      | Except.error e => Except.error e
      | Except.ok chunks => forEachE (fun c => chunkPages pages c.1 c.2) chunks) =
        Except.ok [(pages.drop 2).take 5]
    rw [htot, parse_ranges_73]
    simp [forEachE, hchunk]
  · exact fun s total chunks hne h => parse_ranges_bounds s total chunks hne h

/-- C1 counterexample: on an 8-page document the token "10-12" is not
clamped to `[1, 8]` — `parse_ranges` yields the chunk `(8, 10)`, whose
selected 1-based page indices 8, 9, 10 exceed the page count, and the
split then aborts with an uncaught `IndexError` instead of producing a
clamped output. -/
theorem C1_counterexample :
    parse_ranges (some "10-12") 8 = Except.ok [(8, 10)] ∧
    split_pdf ([1, 2, 3, 4, 5, 6, 7, 8] : List Nat) (some "10-12") =
      Except.error PyError.indexError :=
  ⟨by decide, by decide⟩

theorem C1_witness :
    split_pdf ([10, 20, 30, 40, 50, 60, 70, 80] : List Nat) (some "7-3") =
      Except.ok [(([10, 20, 30, 40, 50, 60, 70, 80] : List Nat).drop 2).take 5] ∧
    (((3 : Int), (7 : Int)).1 ≤ ((3 : Int), (7 : Int)).2 ∧
      ((1 ≤ ((3 : Int), (7 : Int)).1 ∧ ((3 : Int), (7 : Int)).2 ≤ 8) ∨
       (1 ≤ ((3 : Int), (7 : Int)).2 ∧ ((3 : Int), (7 : Int)).1 ≤ 8))) :=
  ⟨C1_range_normalization.1 Nat [10, 20, 30, 40, 50, 60, 70, 80] (by decide),
   C1_range_normalization.2 "7-3" 8 [(3, 7)] (by decide) (by decide) (3, 7) (by decide)⟩

/-- C2 (code bug): a malformed range token makes `parse_ranges` raise a
`ValueError` that no handler in `split_pdf` catches — the request dies
with an uncaught exception (a 5xx at the framework boundary), not with the
specified 4xx `HTTPException`; no output is produced. -/
theorem C2_malformed_token_uncaught :
    split_pdf ([1, 2, 3] : List Nat) (some "abc") = Except.error PyError.valueError ∧
    split_pdf ([1, 2, 3] : List Nat) (some "1-2-3") = Except.error PyError.valueError ∧
    ∀ (status : Nat) (detail : String),
      PyError.valueError ≠ PyError.httpException status detail :=
  ⟨by decide, by decide, fun status detail h => PyError.noConfusion h⟩

theorem C2_witness :
    PyError.valueError ≠ PyError.httpException 400 "Incorrect password" :=
  C2_malformed_token_uncaught.2.2 400 "Incorrect password"

theorem C8_witness :
    split_pdf ([5, 6] : List Nat) none = Except.ok [[5, 6]] ∧
    split_pdf ([5, 6] : List Nat) (some "") = Except.ok [[5, 6]] :=
  C8_split_no_ranges Nat [5, 6]
